import Mathlib

/-!
Verification of the Boss直聘 crawler (boss_zhipin.py) against its design
specification.  The Python source is shallowly embedded: pure helper
functions become Lean functions, the per-listing extraction/filter pipeline
becomes a pure function from per-card DOM observations to an optional job
record, and the stateful polling / scrolling loops become fuel-bounded
recursions over observation sequences.
-/

/-! ## Python string primitives

Models of the Python string operations used by the source: `in`
(substring containment), `str.strip()`, `str.split()` (whitespace split,
empty tokens dropped), `str.lower()` (ASCII case folding; the source only
lowercases search keywords and titles, where non-ASCII characters are
unchanged by Python as well). -/

/-- Does the needle occur at the head of the haystack? -/
def matchHereL : List Char → List Char → Bool
  | [], _ => true
  | _ :: _, [] => false
  | a :: as, b :: bs => a == b && matchHereL as bs

/-- Does the needle occur anywhere in the haystack (first arg: haystack)? -/
def hasSubL : List Char → List Char → Bool
  | _, [] => true
  | [], _ :: _ => false
  | h :: hs, n => matchHereL n (h :: hs) || hasSubL hs n

/-- Python `needle in hay` on strings. -/
def pyIn (needle hay : String) : Bool :=
  hasSubL hay.data needle.data

/-- Python `s.strip()`: drop leading and trailing whitespace. -/
def pyStrip (s : String) : String :=
  String.mk (((s.data.dropWhile Char.isWhitespace).reverse.dropWhile Char.isWhitespace).reverse)

/-- Helper for `pySplit`: accumulate the current token (reversed). -/
def pySplitAux : List Char → List Char → List String
  | [], acc => if acc.isEmpty then [] else [String.mk acc.reverse]
  | c :: cs, acc =>
    if c.isWhitespace then
      if acc.isEmpty then pySplitAux cs [] else String.mk acc.reverse :: pySplitAux cs []
    else pySplitAux cs (c :: acc)

/-- Python `s.split()` with no separator: split on whitespace runs, no empty tokens. -/
def pySplit (s : String) : List String :=
  pySplitAux s.data []

/-- Python `s.lower()` restricted to ASCII letters (the only characters the
source ever lowercases that are case-sensitive). -/
def pyLower (s : String) : String :=
  String.mk (s.data.map Char.toLower)

/-- Does the string contain any of the given characters (models the regex
search for a character class such as `[周月年]`)? -/
def strContainsAny (s : String) (cs : List Char) : Bool :=
  s.data.any (fun c => cs.contains c)

/-! ## Obfuscation decoder (boss_zhipin.py lines 80-91, 199-219) -/

/-- Association-list lookup modelling Python dict access
`d[c] if c in d else ...` (keys are unique). -/
def assocGet : List (Char × String) → Char → Option String
  | [], _ => none
  | (k, v) :: rest, c => if c = k then some v else assocGet rest c

/-- The salary obfuscation table: ten private-use-area characters mapped to
ASCII digits, exactly as written in the source (`salary_mapping`). -/
def salary_mapping : List (Char × String) :=
  [(Char.ofNat 0xE031, "0"),
   (Char.ofNat 0xE032, "1"),
   (Char.ofNat 0xE033, "2"),
   (Char.ofNat 0xE034, "3"),
   (Char.ofNat 0xE035, "4"),
   (Char.ofNat 0xE036, "5"),
   (Char.ofNat 0xE037, "6"),
   (Char.ofNat 0xE038, "7"),
   (Char.ofNat 0xE039, "8"),
   (Char.ofNat 0xE03A, "9")]

/-- The domain of the obfuscation table. -/
def mappingDomain : List Char :=
  salary_mapping.map Prod.fst

/-- Per-character step of `decode_salary`:
`salary_mapping[c] if c in salary_mapping else c`. -/
def decChar (c : Char) : String :=
  match assocGet salary_mapping c with
  | some d => d
  | none => String.mk [c]

/-- `decode_salary` (lines 199-219): join of the per-character translation
over the whole string. -/
def decode_salary (salary : String) : String :=
  salary.data.foldr (fun c acc => decChar c ++ acc) ""

/-- Character-level view of the decoder (used to reason positionally). -/
def decCharF (c : Char) : Char :=
  if c = Char.ofNat 0xE031 then '0'
  else if c = Char.ofNat 0xE032 then '1'
  else if c = Char.ofNat 0xE033 then '2'
  else if c = Char.ofNat 0xE034 then '3'
  else if c = Char.ofNat 0xE035 then '4'
  else if c = Char.ofNat 0xE036 then '5'
  else if c = Char.ofNat 0xE037 then '6'
  else if c = Char.ofNat 0xE038 then '7'
  else if c = Char.ofNat 0xE039 then '8'
  else if c = Char.ofNat 0xE03A then '9'
  else c

/-! ## Scroll pagination (boss_zhipin.py lines 556-594)

The loop is driven by two observation sequences indexed by iteration
number: `height i` is the extent of the results container measured at the
top of iteration `i` (before that iteration scrolls, hence after the
previous iteration's content load), and `loading i` records whether the
appear-then-disappear wait on the loading indicator succeeded in
iteration `i`.  The loop keeps `prev_h` (last recorded extent, initially
0); an iteration breaks out when the indicator wait fails or when the
measured extent did not grow past `prev_h`. -/

/-- The value of `prev_h` on entry to iteration `i`, along an executed
run: 0 initially, and the previous measurement afterwards. -/
def prevAt (height : Nat → Nat) : Nat → Nat
  | 0 => 0
  | i + 1 => height i

/-- Fuel-indexed pagination loop; returns the number of iterations
executed (each executed iteration performs exactly one scroll). -/
def paginateAux (height : Nat → Nat) (loading : Nat → Bool) :
    Nat → Nat → Nat → Nat
  | 0, _, i => i
  | fuel + 1, prevH, i =>
    if loading i = false then i + 1
    else if prevH < height i then paginateAux height loading fuel (height i) (i + 1)
    else i + 1

/-- The scroll loop of `query_jobs`: at most `scroll_n` iterations. -/
def paginate (scroll_n : Nat) (height : Nat → Nat) (loading : Nat → Bool) : Nat :=
  paginateAux height loading scroll_n 0 0

/-! ## Login polling (boss_zhipin.py lines 134-194)

`figVis i` records whether the authenticated-user marker (`.nav-figure`)
is visible at the check opening poll iteration `i`.  The loop runs at most
300 iterations; on the first visible poll it saves cookies and returns
`True`; exhaustion returns `False`.  The result is the pair
(success, cookiesSaved). -/

def loginRun (figVis : Nat → Bool) : Nat → Nat → Bool × Bool
  | _, 0 => (false, false)
  | i, fuel + 1 => if figVis i then (true, true) else loginRun figVis (i + 1) fuel

/-- The `login` coroutine after the vision-independent preamble: the
300-iteration polling loop. -/
def login (figVis : Nat → Bool) : Bool × Bool :=
  loginRun figVis 0 300

/-! ## Static tables (boss_zhipin.py lines 19-75) -/

/-- The site base URL. -/
def base_url : String := "https://www.zhipin.com"

/-- Association-list lookup with string keys, modelling Python
`dict.get(k, default)` (keys are unique). -/
def assocGetS : List (String × String) → String → Option String
  | [], _ => none
  | (k, v) :: rest, c => if c = k then some v else assocGetS rest c

/-- City code to city label table (`city_code_mapping`). -/
def city_code_mapping : List (String × String) :=
  [("100010000", "全国"), ("101010100", "北京"), ("101020100", "上海"),
   ("101280100", "广州"), ("101280600", "深圳"), ("101210100", "杭州"),
   ("101270100", "成都"), ("101200100", "武汉"), ("101110100", "西安"),
   ("101190100", "南京"), ("101190400", "苏州"), ("101030100", "天津"),
   ("101040100", "重庆"), ("101250100", "长沙"), ("101180100", "郑州"),
   ("101120100", "济南"), ("101120200", "青岛"), ("101070200", "大连"),
   ("101230200", "厦门"), ("101230100", "福州"), ("101220100", "合肥")]

/-- `city_code_mapping.get(city, "未知")` as used at the top of `query_jobs`. -/
def defaultCityOf (cityCode : String) : String :=
  (assocGetS city_code_mapping cityCode).getD "未知"

/-- The hard-coded city-name scan list inside `query_jobs` (lines 705-706). -/
def city_list : List String :=
  ["北京", "上海", "广州", "深圳", "杭州", "成都", "武汉", "西安", "南京", "苏州",
   "天津", "重庆", "长沙", "郑州", "济南", "青岛", "大连", "厦门", "福州", "合肥"]

/-! ## Data model -/

/-- `Job.Info`: the record yielded by the pipeline. -/
structure JobInfo where
  company : String
  title : String
  salary : String
  experience : String
  desc : String
  url : String
  city : String
deriving DecidableEq

/-- `SearchCriteria`: the parameters of `query_jobs`.  `none` models a
Python `None` (absent optional facet). -/
structure Criteria where
  query : String
  city : String
  salary : Option String
  experience : Option String
  degree : Option String
  scroll_n : Nat
  filter_tags : Option (List String)
  blacklist : Option (List String)

/-- Per-card DOM observations consumed by one iteration of the extraction
loop: visibility flags and inner texts of the elements the code probes, in
the fixed selector order of the source. -/
structure CardObs where
  tagVisible : Bool
  tagAlt : Option String
  areaHints : List (Bool × String)
  activeVisible : Bool
  activeText : String
  companyName : String
  detailLocs : List (Bool × String)
  infoBlocks : List (Bool × String)
  href : Option String
  titleText : String
  salaryText : String
  descText : String

/-! ## Search URL construction (lines 487-501) -/

/-- Python truthiness of an optional string (`if salary:`). -/
def truthyOpt (o : Option String) : Bool :=
  match o with
  | none => false
  | some s => !(s == "")

/-- The parameter list passed to `urlencode`: `query` and `city` always, the
optional facets only when truthy, in dict insertion order. -/
def buildParams (cr : Criteria) : List (String × String) :=
  [("query", cr.query), ("city", cr.city)]
    ++ (if truthyOpt cr.salary then [("salary", cr.salary.getD "")] else [])
    ++ (if truthyOpt cr.experience then [("experience", cr.experience.getD "")] else [])
    ++ (if truthyOpt cr.degree then [("degree", cr.degree.getD "")] else [])

/-- Uppercase hex digit. -/
def hexDigit (n : Nat) : Char :=
  if n < 10 then Char.ofNat (48 + n) else Char.ofNat (55 + n)

/-- Percent-encoding of one byte. -/
def quoteByte (b : UInt8) : String :=
  String.mk ['%', hexDigit (b.toNat / 16), hexDigit (b.toNat % 16)]

/-- Characters `urllib.parse.quote` leaves unencoded with `safe=''`
(the default `urlencode` passes `safe=''` to `quote_via`). -/
def isSafeChar (c : Char) : Bool :=
  c.isAlphanum || c == '_' || c == '.' || c == '-' || c == '~'

/-- `urllib.parse.quote(s, safe='')`: percent-encode the UTF-8 bytes of
every unsafe character. -/
def pyQuote (s : String) : String :=
  s.data.foldr
    (fun c acc =>
      (if isSafeChar c then String.mk [c]
       else (String.mk [c]).toUTF8.toList.foldr (fun b acc2 => quoteByte b ++ acc2) "") ++ acc)
    ""

/-- `urlencode(params, quote_via=quote)`: `k=v` pairs joined by `&`. -/
def urlencodeParams (ps : List (String × String)) : String :=
  String.intercalate "&" (ps.map (fun p => pyQuote p.1 ++ "=" ++ pyQuote p.2))

/-- The full search URL built by `query_jobs` (line 501). -/
def searchUrl (cr : Criteria) : String :=
  base_url ++ "/web/geek/jobs?" ++ urlencodeParams (buildParams cr)

/-! ## City resolution (lines 612-720) -/

/-- Pre-navigation card-city loop (lines 614-633): first argument is the
current `job_city` value (initially the criteria city label); each hint is
the (visible, inner text) observation of one card-area selector.  The first
token of the first usable hint is taken; a token equal to "未知" is kept
but the scan continues. -/
def resolveCardCity : String → List (Bool × String) → String
  | jc, [] => jc
  | jc, (vis, txt) :: rest =>
    if vis = true ∧ txt ≠ "" ∧ pyStrip txt ≠ "" then
      match pySplit (pyStrip txt) with
      | [] => resolveCardCity jc rest
      | p :: _ => if p ≠ "未知" then p else resolveCardCity p rest
    else resolveCardCity jc rest

/-- Detail-view selector loop (lines 667-693): like the card loop but the
scan only stops early on a token differing from both the criteria label and
"未知". -/
def resolveDetailCity (defaultCity : String) : String → List (Bool × String) → String
  | jc, [] => jc
  | jc, (vis, txt) :: rest =>
    if vis = true ∧ txt ≠ "" ∧ pyStrip txt ≠ "" then
      match pySplit (pyStrip txt) with
      | [] => resolveDetailCity defaultCity jc rest
      | p :: _ =>
        if p ≠ defaultCity ∧ p ≠ "未知" then p else resolveDetailCity defaultCity p rest
    else resolveDetailCity defaultCity jc rest

/-- Free-text scan of the info blocks against the known-city list
(lines 696-716). -/
def infoCityScan (defaultCity : String) : String → List (Bool × String) → String
  | jc, [] => jc
  | jc, (vis, txt) :: rest =>
    if vis then
      let jc2 := match city_list.find? (fun c => pyIn c txt) with
        | some c => c
        | none => jc
      if jc2 ≠ defaultCity ∧ jc2 ≠ "未知" then jc2 else infoCityScan defaultCity jc2 rest
    else infoCityScan defaultCity jc rest

/-- The complete city resolution for one card: card hints, then (if still
at the default or unknown) detail selectors, then the info-block scan, then
the final "未知"-to-default fallback (lines 612-720). -/
def resolvedCity (cr : Criteria) (card : CardObs) : String :=
  let defaultCity := defaultCityOf cr.city
  let c0 := resolveCardCity defaultCity card.areaHints
  let c1 := if c0 = defaultCity ∨ c0 = "未知"
    then resolveDetailCity defaultCity c0 card.detailLocs else c0
  let c2 := if c1 = defaultCity ∨ c1 = "未知"
    then infoCityScan defaultCity c1 card.infoBlocks else c1
  if c2 = "未知" then defaultCity else c2

/-! ## Keyword relevance filter (lines 733-756) -/

/-- The whitespace tokens of the stripped query, each stripped, empties
dropped (line 740). -/
def keywordsOf (query : String) : List String :=
  ((pySplit (pyStrip query)).map pyStrip).filter (fun k => !(k == ""))

/-- The keyword relevance check: every token must occur (lowercased) in the
lowercased title or description; an empty or all-whitespace query filters
nothing. -/
def keywordOk (query title desc : String) : Bool :=
  if query = "" then true
  else if pyStrip query = "" then true
  else (keywordsOf query).all
    (fun kw => pyIn (pyLower kw) (pyLower title) || pyIn (pyLower kw) (pyLower desc))

/-! ## Experience extraction (lines 767-801)

The regexes are alternations of patterns of three shapes: digits-dash-digits
followed by a literal, digits followed by a literal, and a plain literal.
Since every `\d+` is followed by a non-digit character, the greedy maximal
digit run is the unique viable match, so each matcher below is exact. -/

/-- Match `\d+[-~]\d+` followed by a literal suffix at this position. -/
def matchNumRange (suffix : List Char) (cs : List Char) : Option (List Char) :=
  let d1 := cs.takeWhile Char.isDigit
  let r1 := cs.dropWhile Char.isDigit
  if d1 = [] then none
  else
    match r1 with
    | [] => none
    | sep :: r2 =>
      if sep = '-' ∨ sep = '~' then
        let d2 := r2.takeWhile Char.isDigit
        let r3 := r2.dropWhile Char.isDigit
        if d2 = [] then none
        else if matchHereL suffix r3 then some (d1 ++ sep :: (d2 ++ suffix)) else none
      else none

/-- Match `\d+` followed by a literal suffix at this position. -/
def matchNumSuffix (suffix : List Char) (cs : List Char) : Option (List Char) :=
  let d1 := cs.takeWhile Char.isDigit
  let r1 := cs.dropWhile Char.isDigit
  if d1 = [] then none
  else if matchHereL suffix r1 then some (d1 ++ suffix) else none

/-- Match a literal at this position. -/
def matchLit (lit : List Char) (cs : List Char) : Option (List Char) :=
  if matchHereL lit cs then some lit else none

/-- Try each alternative of an alternation, in order, at this position. -/
def tryAlts (alts : List (List Char → Option (List Char))) (cs : List Char) :
    Option (List Char) :=
  alts.findSome? (fun f => f cs)

/-- `re.search` over an alternation: scan positions left to right, at each
position try the alternatives in order; leftmost match wins. -/
def searchAlts (alts : List (List Char → Option (List Char))) :
    List Char → Option (List Char)
  | [] => tryAlts alts []
  | c :: cs =>
    match tryAlts alts (c :: cs) with
    | some m => some m
    | none => searchAlts alts cs

/-- The broad first-pass pattern
`(\d+[-~]\d+年|\d+年以上|不限|应届|实习)` (line 777). -/
def expPass1Alts : List (List Char → Option (List Char)) :=
  [matchNumRange "年".data, matchNumSuffix "年以上".data,
   matchLit "不限".data, matchLit "应届".data, matchLit "实习".data]

/-- Search one info-block text with the first-pass regex. -/
def searchExpPass1 (txt : String) : Option String :=
  (searchAlts expPass1Alts txt.data).map (fun l => String.mk l)

/-- First pass (lines 770-782): walk the info blocks in selector order;
for each visible block run the broad regex; keep the first match. -/
def firstPassExp (blocks : List (Bool × String)) : Option String :=
  blocks.findSome? (fun bt => if bt.1 then searchExpPass1 bt.2 else none)

/-- The narrower second-pass patterns, each a separate `re.search` against
the description, in order (lines 788-794). -/
def expPass2Pats : List (List Char → Option (List Char)) :=
  [matchNumRange "年工作经验".data, matchNumSuffix "年以上工作经验".data,
   matchLit "应届毕业生".data, matchNumRange "年经验".data,
   matchNumSuffix "年以上经验".data]

/-- Second pass: first pattern (in list order) with a match anywhere in the
description wins. -/
def searchPass2 (desc : String) : Option String :=
  expPass2Pats.findSome? (fun f => (searchAlts [f] desc.data).map (fun l => String.mk l))

/-- Experience extraction (lines 767-801): run the first pass; if the value
is still "不限" (no match, or a literal "不限" match) run the second pass
over the description; default "不限". -/
def extractExperience (blocks : List (Bool × String)) (desc : String) : String :=
  let e1 := (firstPassExp blocks).getD "不限"
  if e1 = "不限" then (searchPass2 desc).getD "不限" else e1

/-! ## Per-card filters and the pipeline (lines 596-832) -/

/-- Tag exclusion (lines 602-607): the icon must be visible and its `alt`
attribute a member of the configured set. -/
def tagHit (tags : Option (List String)) (card : CardObs) : Bool :=
  match tags with
  | none => false
  | some ts =>
    card.tagVisible &&
      (match card.tagAlt with
       | some a => ts.contains a
       | none => false)

/-- Blacklist gate (line 805): yield iff no blacklist is configured or the
company is not a member (`not blacklist or company_name not in blacklist`). -/
def blacklistOk (bl : Option (List String)) (company : String) : Bool :=
  match bl with
  | none => true
  | some l => l.isEmpty || !(l.contains company)

/-- Absolute URL resolution (lines 722-731). -/
def resolveUrl (href : Option String) : String :=
  match href with
  | none => ""
  | some h => if h = "" then "" else if h.startsWith "http" then h else base_url ++ h

/-- One iteration of the per-card loop of `query_jobs` (lines 600-832):
the filters in source order (tag exclusion, recruiter staleness, keyword
relevance, city consistency, agency marker, blacklist), producing the
yielded record or nothing. -/
def processCard (cr : Criteria) (card : CardObs) : Option JobInfo :=
  if tagHit cr.filter_tags card then none
  else if card.activeVisible && strContainsAny card.activeText ['周', '月', '年'] then none
  else if keywordOk cr.query card.titleText card.descText = false then none
  else if resolvedCity cr card ≠ defaultCityOf cr.city then none
  else if pyIn "某" card.companyName then none
  else if blacklistOk cr.blacklist card.companyName then
    some { company := card.companyName
           title := card.titleText
           salary := decode_salary card.salaryText
           experience := extractExperience card.infoBlocks card.descText
           desc := card.descText
           url := resolveUrl card.href
           city := resolvedCity cr card }
  else none

/-- The record stream of `query_jobs`: empty when login fails, otherwise
the per-card results in on-page order (lines 483-485, 596-832). -/
def query_jobs (loginOk : Bool) (cr : Criteria) (cards : List CardObs) : List JobInfo :=
  if loginOk then cards.filterMap (processCard cr) else []

/-! ## Fixtures for concrete evaluations -/

def c1Criteria : Criteria :=
  { query := "Python开发", city := "101010100", salary := none, experience := none,
    degree := none, scroll_n := 8, filter_tags := none, blacklist := none }

def c1Card : CardObs :=
  { tagVisible := false, tagAlt := none,
    areaHints := [(true, "北京·朝阳区")],
    activeVisible := true, activeText := "刚刚活跃",
    companyName := "测试网络科技有限公司",
    detailLocs := [], infoBlocks := [],
    href := some "/job_detail/abc123.html",
    titleText := "Python开发工程师", salaryText := "15-25K",
    descText := "负责Python开发" }

def c4Criteria : Criteria :=
  { query := "", city := "101010100", salary := none, experience := none,
    degree := none, scroll_n := 8, filter_tags := none, blacklist := none }

def c4Card : CardObs :=
  { tagVisible := false, tagAlt := none, areaHints := [],
    activeVisible := true, activeText := "半年前活跃",
    companyName := "示例公司", detailLocs := [], infoBlocks := [],
    href := none, titleText := "工程师", salaryText := "", descText := "" }

def c5Criteria : Criteria :=
  { query := "Python开发", city := "101010100", salary := none, experience := none,
    degree := none, scroll_n := 8, filter_tags := none, blacklist := none }

def c5Card : CardObs :=
  { tagVisible := false, tagAlt := none, areaHints := [(true, "北京")],
    activeVisible := false, activeText := "",
    companyName := "样例科技公司", detailLocs := [], infoBlocks := [],
    href := none, titleText := "Python开发工程师", salaryText := "25-35K",
    descText := "负责开发设计" }

def c5Record : JobInfo :=
  { company := "样例科技公司", title := "Python开发工程师", salary := "25-35K",
    experience := "不限", desc := "负责开发设计", url := "", city := "北京" }

def c6Criteria : Criteria :=
  { query := "", city := "101010100", salary := none, experience := none,
    degree := none, scroll_n := 8, filter_tags := none, blacklist := none }

def c6Card : CardObs :=
  { tagVisible := false, tagAlt := none, areaHints := [(true, "北京 海淀区")],
    activeVisible := false, activeText := "",
    companyName := "测试公司", detailLocs := [], infoBlocks := [],
    href := none, titleText := "工程师", salaryText := "20-30K",
    descText := "岗位描述" }

def c6Record : JobInfo :=
  { company := "测试公司", title := "工程师", salary := "20-30K",
    experience := "不限", desc := "岗位描述", url := "", city := "北京" }

def c7Criteria : Criteria :=
  { query := "Python开发", city := "101010100", salary := none, experience := none,
    degree := none, scroll_n := 8, filter_tags := none, blacklist := none }

def c8Criteria : Criteria :=
  { query := "数据分析", city := "101020100", salary := none, experience := none,
    degree := none, scroll_n := 8, filter_tags := none, blacklist := none }

/-! ## Decoder, pagination and login theorems -/

theorem decChar_eq (c : Char) : decChar c = String.mk [decCharF c] := by
  by_cases h1 : c = Char.ofNat 0xE031
  · subst h1; rfl
  by_cases h2 : c = Char.ofNat 0xE032
  · subst h2; rfl
  by_cases h3 : c = Char.ofNat 0xE033
  · subst h3; rfl
  by_cases h4 : c = Char.ofNat 0xE034
  · subst h4; rfl
  by_cases h5 : c = Char.ofNat 0xE035
  · subst h5; rfl
  by_cases h6 : c = Char.ofNat 0xE036
  · subst h6; rfl
  by_cases h7 : c = Char.ofNat 0xE037
  · subst h7; rfl
  by_cases h8 : c = Char.ofNat 0xE038
  · subst h8; rfl
  by_cases h9 : c = Char.ofNat 0xE039
  · subst h9; rfl
  by_cases h10 : c = Char.ofNat 0xE03A
  · subst h10; rfl
  have hnone : assocGet salary_mapping c = none := by
    simp [salary_mapping, assocGet, h1, h2, h3, h4, h5, h6, h7, h8, h9, h10]
  unfold decChar decCharF
  rw [hnone]
  simp [h1, h2, h3, h4, h5, h6, h7, h8, h9, h10]

theorem string_data_injective {a b : String} (h : a.data = b.data) : a = b := by
  cases a; cases b; cases h; rfl

theorem decode_salary_data (s : String) :
    (decode_salary s).data = s.data.map decCharF := by
  unfold decode_salary
  induction s.data with
  | nil => rfl
  | cons c cs ih =>
    show ((decChar c ++ cs.foldr (fun c acc => decChar c ++ acc) "")).data = _
    rw [String.data_append, ih, decChar_eq]
    rfl

theorem decCharF_not_mem (c : Char) : decCharF c ∉ mappingDomain := by
  unfold decCharF
  split_ifs
  case _ => decide
  case _ => decide
  case _ => decide
  case _ => decide
  case _ => decide
  case _ => decide
  case _ => decide
  case _ => decide
  case _ => decide
  case _ => decide
  case _ => simp_all [mappingDomain, salary_mapping]

theorem mappingDomain_eq : mappingDomain =
    [Char.ofNat 0xE031, Char.ofNat 0xE032, Char.ofNat 0xE033, Char.ofNat 0xE034,
     Char.ofNat 0xE035, Char.ofNat 0xE036, Char.ofNat 0xE037, Char.ofNat 0xE038,
     Char.ofNat 0xE039, Char.ofNat 0xE03A] := rfl

theorem decCharF_id_of_not_mem (c : Char) (h : c ∉ mappingDomain) : decCharF c = c := by
  rw [mappingDomain_eq] at h
  simp only [List.mem_cons, List.mem_singleton, not_or] at h
  obtain ⟨h1, h2, h3, h4, h5, h6, h7, h8, h9, h10, -⟩ := h
  unfold decCharF
  rw [if_neg h1, if_neg h2, if_neg h3, if_neg h4, if_neg h5,
      if_neg h6, if_neg h7, if_neg h8, if_neg h9, if_neg h10]

theorem decCharF_idem (c : Char) : decCharF (decCharF c) = decCharF c :=
  decCharF_id_of_not_mem _ (decCharF_not_mem c)

theorem map_decCharF_idem (l : List Char) :
    (l.map decCharF).map decCharF = l.map decCharF := by
  induction l with
  | nil => rfl
  | cons c cs ih => simp [decCharF_idem, ih]

/-- Claim C2: `decode_salary` is idempotent, its output contains no character
of the 10-entry obfuscation domain, it preserves length, and every character
outside the domain is unchanged at its position.  (It is a total computable
function on strings by construction.) -/
theorem decode_salary_spec (s : String) :
    decode_salary (decode_salary s) = decode_salary s ∧
    (∀ c, c ∈ (decode_salary s).data → c ∉ mappingDomain) ∧
    (decode_salary s).data.length = s.data.length ∧
    (∀ i (h1 : i < s.data.length) (h2 : i < (decode_salary s).data.length),
      s.data.get ⟨i, h1⟩ ∉ mappingDomain →
      (decode_salary s).data.get ⟨i, h2⟩ = s.data.get ⟨i, h1⟩) := by
  refine ⟨?_, ?_, ?_, ?_⟩
  · apply string_data_injective
    rw [decode_salary_data, decode_salary_data, map_decCharF_idem]
  · intro c hc
    rw [decode_salary_data] at hc
    obtain ⟨a, -, rfl⟩ := List.mem_map.mp hc
    exact decCharF_not_mem a
  · rw [decode_salary_data, List.length_map]
  · intro i h1 h2 hnm
    have key : (decode_salary s).data.get ⟨i, h2⟩ = decCharF (s.data.get ⟨i, h1⟩) := by
      simp only [List.get_eq_getElem]
      simp only [decode_salary_data]
      simp [List.getElem_map]
    rw [key, decCharF_id_of_not_mem _ hnm]

/-- Witness for C2 applied to the concrete salary string
`[U+E032, '5', 'K']` at position 2 (an unmapped character). -/
theorem decode_salary_spec_witness :
    (decode_salary (String.mk [Char.ofNat 0xE032, '5', 'K'])).data.get ⟨2, by decide⟩ =
      (String.mk [Char.ofNat 0xE032, '5', 'K']).data.get ⟨2, by decide⟩ :=
  (decode_salary_spec (String.mk [Char.ofNat 0xE032, '5', 'K'])).2.2.2 2
    (by decide) (by decide) (by decide)

/-- Claim C10: the obfuscation table maps exactly the ten code points
U+E031 through U+E03A, with `chr(0xE031 + d)` mapped to the ASCII digit `d`
for every `d` in 0..9; U+E030 is not in the table and passes through
`decode_salary` unchanged. -/
theorem salary_mapping_exact_range :
    (∀ d, d < 10 → assocGet salary_mapping (Char.ofNat (0xE031 + d)) =
        some (String.mk [Char.ofNat (48 + d)])) ∧
    mappingDomain = (List.range 10).map (fun d => Char.ofNat (0xE031 + d)) ∧
    Char.ofNat 0xE030 ∉ mappingDomain ∧
    decode_salary (String.mk [Char.ofNat 0xE030]) = String.mk [Char.ofNat 0xE030] := by
  exact ⟨by decide, by decide, by decide, by decide⟩

/-- Witness for C10 at `d = 9`: U+E03A maps to the digit 9. -/
theorem salary_mapping_exact_range_witness :
    assocGet salary_mapping (Char.ofNat (0xE031 + 9)) =
      some (String.mk [Char.ofNat (48 + 9)]) :=
  salary_mapping_exact_range.1 9 (by decide)

theorem paginateAux_invariant (height : Nat → Nat) (loading : Nat → Bool) :
    ∀ fuel i,
      i ≤ paginateAux height loading fuel (prevAt height i) i ∧
      paginateAux height loading fuel (prevAt height i) i ≤ i + fuel ∧
      (∀ j, i ≤ j → j + 1 < paginateAux height loading fuel (prevAt height i) i →
        loading j = true ∧ prevAt height j < height j) ∧
      (paginateAux height loading fuel (prevAt height i) i < i + fuel →
        i < paginateAux height loading fuel (prevAt height i) i ∧
        ¬(loading (paginateAux height loading fuel (prevAt height i) i - 1) = true ∧
          prevAt height (paginateAux height loading fuel (prevAt height i) i - 1) <
            height (paginateAux height loading fuel (prevAt height i) i - 1))) := by
  intro fuel
  induction fuel with
  | zero =>
    intro i
    simp only [paginateAux]
    refine ⟨Nat.le_refl i, by omega, ?_, by omega⟩
    intro j hij hj
    omega
  | succ fuel ih =>
    intro i
    simp only [paginateAux]
    by_cases hl : loading i = false
    · rw [if_pos hl]
      refine ⟨by omega, by omega, ?_, ?_⟩
      · intro j hij hj
        omega
      · intro _
        refine ⟨by omega, ?_⟩
        rintro ⟨hA, -⟩
        rw [Nat.add_sub_cancel] at hA
        simp [hA] at hl
    · rw [if_neg hl]
      have hlt : loading i = true := by
        cases hv : loading i
        · exact absurd hv hl
        · rfl
      by_cases hg : prevAt height i < height i
      · rw [if_pos hg]
        have hrec := ih (i + 1)
        have hpv : prevAt height (i + 1) = height i := rfl
        rw [hpv] at hrec
        obtain ⟨r1, r2, r3, r4⟩ := hrec
        refine ⟨by omega, by omega, ?_, ?_⟩
        · intro j hij hj
          rcases Nat.lt_or_ge j (i + 1) with hji | hji
          · have hje : j = i := by omega
            subst hje
            exact ⟨hlt, hg⟩
          · exact r3 j hji hj
        · intro hbound
          have hb' : paginateAux height loading fuel (height i) (i + 1) < i + 1 + fuel := by
            omega
          obtain ⟨s1, s2⟩ := r4 hb'
          exact ⟨by omega, s2⟩
      · rw [if_neg hg]
        refine ⟨by omega, by omega, ?_, ?_⟩
        · intro j hij hj
          omega
        · intro _
          refine ⟨by omega, ?_⟩
          rintro ⟨-, hB⟩
          rw [Nat.add_sub_cancel] at hB
          exact hg hB

/-- Claim C3: the scroll loop runs at most `scroll_n` iterations; every
iteration strictly before the last one saw the loading indicator and strict
growth over the previously recorded extent; an early exit happens exactly
when the last executed iteration violated that condition; and once two
consecutive measurements are equal the loop stops within one further
iteration (it never scrolls past that point). -/
theorem paginate_termination (scroll_n : Nat) (height : Nat → Nat) (loading : Nat → Bool) :
    paginate scroll_n height loading ≤ scroll_n ∧
    (∀ j, j + 1 < paginate scroll_n height loading →
      loading j = true ∧ prevAt height j < height j) ∧
    (paginate scroll_n height loading < scroll_n →
      0 < paginate scroll_n height loading ∧
      ¬(loading (paginate scroll_n height loading - 1) = true ∧
        prevAt height (paginate scroll_n height loading - 1) <
          height (paginate scroll_n height loading - 1))) ∧
    (∀ j, height j = height (j + 1) → paginate scroll_n height loading ≤ j + 2) := by
  have hinv := paginateAux_invariant height loading scroll_n 0
  have hzero : prevAt height 0 = 0 := rfl
  rw [hzero] at hinv
  obtain ⟨i1, i2, i3, i4⟩ := hinv
  have hP : paginate scroll_n height loading = paginateAux height loading scroll_n 0 0 := rfl
  simp only [hP]
  refine ⟨by omega, ?_, ?_, ?_⟩
  · intro j hj
    exact i3 j (Nat.zero_le j) hj
  · intro hlt
    have hres := i4 (by omega)
    exact ⟨by omega, hres.2⟩
  · intro j hEq
    by_contra hgt
    push_neg at hgt
    have hj1 : (j + 1) + 1 < paginateAux height loading scroll_n 0 0 := by omega
    have hcond := i3 (j + 1) (Nat.zero_le _) hj1
    have hpv : prevAt height (j + 1) = height j := rfl
    rw [hpv, hEq] at hcond
    exact absurd hcond.2 (lt_irrefl _)

/-- Witness for C3 at concrete observations: constant extent 7 with the
indicator always appearing stops within two iterations. -/
theorem paginate_termination_witness :
    paginate 3 (fun _ => 7) (fun _ => true) ≤ 0 + 2 :=
  (paginate_termination 3 (fun _ => 7) (fun _ => true)).2.2.2 0 rfl

theorem loginRun_found (figVis : Nat → Bool) :
    ∀ fuel i, (∃ k, k < fuel ∧ figVis (i + k) = true) →
      loginRun figVis i fuel = (true, true) := by
  intro fuel
  induction fuel with
  | zero =>
    rintro i ⟨k, hk, -⟩
    omega
  | succ fuel ih =>
    rintro i ⟨k, hk, hv⟩
    simp only [loginRun]
    by_cases h0 : figVis i
    · rw [if_pos h0]
    · rw [if_neg h0]
      apply ih
      cases k with
      | zero =>
        rw [Nat.add_zero] at hv
        exact absurd hv h0
      | succ k =>
        refine ⟨k, by omega, ?_⟩
        rw [show i + 1 + k = i + (k + 1) by omega]
        exact hv

theorem loginRun_exhausted (figVis : Nat → Bool) :
    ∀ fuel i, (∀ k, k < fuel → figVis (i + k) = false) →
      loginRun figVis i fuel = (false, false) := by
  intro fuel
  induction fuel with
  | zero =>
    intro i _
    rfl
  | succ fuel ih =>
    intro i h
    simp only [loginRun]
    have h0 : figVis i = false := by
      have := h 0 (by omega)
      rwa [Nat.add_zero] at this
    rw [if_neg (by simp [h0])]
    apply ih
    intro k hk
    rw [show i + 1 + k = i + (k + 1) by omega]
    exact h (k + 1) (by omega)

/-! ## Claim theorems over the pipeline -/

/-- Claim C1: the spec scenario says a card hint "北京·朝阳区" under criteria
city 北京 resolves to "北京" and passes the city filter.  The code splits the
hint with whitespace `split()`, the hint contains no whitespace, so the
resolved city is the entire hint and the record FAILS the filter; the same
card with a space-separated hint passes.  This contradicts the code's own
comment (take only the city name from a hint that may include a district). -/
theorem c1_card_city_hint_evaluation :
    defaultCityOf c1Criteria.city = "北京" ∧
    resolvedCity c1Criteria c1Card = "北京·朝阳区" ∧
    processCard c1Criteria c1Card = none ∧
    (processCard c1Criteria
      { c1Card with areaHints := [(true, "北京 朝阳区")] }).isSome = true := by
  exact ⟨by decide, by decide, by decide, by decide⟩

/-- Claim C4: a visible recruiter-activity text containing a week, month or
year scale unit abandons the listing: no record is produced, and the stream
is exactly the stream of the remaining cards. -/
theorem stale_recruiter_never_yielded (cr : Criteria) (card : CardObs)
    (hv : card.activeVisible = true)
    (hs : strContainsAny card.activeText ['周', '月', '年'] = true) :
    processCard cr card = none ∧
    ∀ loginOk rest, query_jobs loginOk cr (card :: rest) = query_jobs loginOk cr rest := by
  have hnone : processCard cr card = none := by
    simp [processCard, hv, hs]
  refine ⟨hnone, ?_⟩
  intro loginOk rest
  cases loginOk
  · rfl
  · simp [query_jobs, hnone]

/-- Witness for C4: a card whose recruiter was last active half a year ago. -/
theorem stale_recruiter_never_yielded_witness :
    processCard c4Criteria c4Card = none :=
  (stale_recruiter_never_yielded c4Criteria c4Card rfl (by decide)).1

/-- Claim C5: with a non-empty search keyword, a record is yielded only if
every whitespace-delimited token of the keyword occurs case-insensitively
in the title or in the description. -/
theorem keyword_relevance (cr : Criteria) (card : CardObs) (r : JobInfo)
    (hq : cr.query ≠ "") (h : processCard cr card = some r) :
    ∀ kw ∈ keywordsOf cr.query,
      pyIn (pyLower kw) (pyLower card.titleText) = true ∨
      pyIn (pyLower kw) (pyLower card.descText) = true := by
  have hk : keywordOk cr.query card.titleText card.descText = true := by
    by_contra hne
    rw [Bool.not_eq_true] at hne
    simp [processCard, hne] at h
  intro kw hkw
  unfold keywordOk at hk
  rw [if_neg hq] at hk
  by_cases hqs : pyStrip cr.query = ""
  · have hempty : keywordsOf cr.query = [] := by
      unfold keywordsOf
      rw [hqs]
      rfl
    rw [hempty] at hkw
    cases hkw
  · rw [if_neg hqs] at hk
    have hall := List.all_eq_true.mp hk kw hkw
    simp only [Bool.or_eq_true] at hall
    exact hall

/-- Witness for C5 on a concrete yielded record. -/
theorem keyword_relevance_witness :
    pyIn (pyLower "Python开发") (pyLower c5Card.titleText) = true ∨
    pyIn (pyLower "Python开发") (pyLower c5Card.descText) = true :=
  keyword_relevance c5Criteria c5Card c5Record (by decide) (by decide)
    "Python开发" (by decide)

/-- Claim C6: every yielded record's city equals the criteria city label
(the `city_code_mapping` value of the criteria city code) exactly, and a
card whose resolved city differs is discarded before yielding. -/
theorem city_consistency (cr : Criteria) (card : CardObs) :
    (∀ r, processCard cr card = some r → r.city = defaultCityOf cr.city) ∧
    (resolvedCity cr card ≠ defaultCityOf cr.city → processCard cr card = none) := by
  constructor
  · intro r h
    unfold processCard at h
    split_ifs at h with h1 h2 h3 h4 h5 h6
    all_goals try exact Option.noConfusion h
    injection h with hr
    rw [← hr]
    exact not_not.mp h4
  · intro hne
    simp [processCard, hne]

/-- Witness for C6 on a concrete yielded record. -/
theorem city_consistency_witness :
    c6Record.city = defaultCityOf c6Criteria.city :=
  (city_consistency c6Criteria c6Card).1 c6Record (by decide)

/-- Claim C7: with only the mandatory fields set (all optional facets
absent), the parameter list is exactly `query` and `city`, and the search
URL encodes exactly those two parameters. -/
theorem build_query_mandatory_only (cr : Criteria)
    (hs : cr.salary = none) (he : cr.experience = none) (hd : cr.degree = none) :
    buildParams cr = [("query", cr.query), ("city", cr.city)] ∧
    searchUrl cr = base_url ++ "/web/geek/jobs?" ++
      urlencodeParams [("query", cr.query), ("city", cr.city)] := by
  have hb : buildParams cr = [("query", cr.query), ("city", cr.city)] := by
    simp [buildParams, hs, he, hd, truthyOpt]
  exact ⟨hb, by rw [searchUrl, hb]⟩

/-- Witness for C7 at concrete mandatory-only criteria. -/
theorem build_query_mandatory_only_witness :
    buildParams c7Criteria = [("query", "Python开发"), ("city", "101010100")] :=
  (build_query_mandatory_only c7Criteria rfl rfl rfl).1

/-- Claim C8: the login poll runs up to 300 iterations; the moment the
authenticated-user marker is visible it persists the cookies and succeeds;
after all 300 polls it fails; and a failed login yields an empty record
stream. -/
theorem login_poll_spec (figVis : Nat → Bool) (cr : Criteria) (cards : List CardObs) :
    ((∃ i, i < 300 ∧ figVis i = true) → login figVis = (true, true)) ∧
    ((∀ i, i < 300 → figVis i = false) → login figVis = (false, false)) ∧
    ((login figVis).1 = false → query_jobs (login figVis).1 cr cards = []) := by
  refine ⟨?_, ?_, ?_⟩
  · rintro ⟨i, hi, hv⟩
    unfold login
    apply loginRun_found
    refine ⟨i, hi, ?_⟩
    rw [Nat.zero_add]
    exact hv
  · intro hall
    unfold login
    apply loginRun_exhausted
    intro k hk
    rw [Nat.zero_add]
    exact hall k hk
  · intro hf
    rw [hf]
    rfl

/-- Witness for C8: the marker becomes visible at poll 5. -/
theorem login_poll_spec_witness :
    login (fun i => decide (i = 5)) = (true, true) :=
  (login_poll_spec (fun i => decide (i = 5)) c8Criteria []).1 ⟨5, by decide, by decide⟩

/-- Counterexample to C9 as stated: the broad first pass MATCHES (the
literal "不限") on the info block, yet the second pass still runs against
the description and overrides the result — so the second pass is not
applied only when no first-pass pattern matched. -/
theorem experience_first_pass_counterexample :
    firstPassExp [(true, "经验不限")] = some "不限" ∧
    extractExperience [(true, "经验不限")] "3-5年工作经验" = "3-5年工作经验" ∧
    "3-5年工作经验" ≠ ("不限" : String) := by
  exact ⟨by decide, by decide, by decide⟩

/-- Claim C9 amended: the broad first pass walks the info blocks in fixed
order and its first match is kept when it differs from "不限"; the narrow
second pass over the description runs whenever the value so far is "不限"
(no first-pass match, or a literal "不限" match) and its match overrides;
if nothing matches in either pass the field is exactly "不限". -/
theorem extract_experience_spec (blocks : List (Bool × String)) (desc : String) :
    (∀ t, firstPassExp blocks = some t → t ≠ "不限" → extractExperience blocks desc = t) ∧
    (firstPassExp blocks = none →
      extractExperience blocks desc = (searchPass2 desc).getD "不限") ∧
    (firstPassExp blocks = some "不限" →
      extractExperience blocks desc = (searchPass2 desc).getD "不限") ∧
    (firstPassExp blocks = none → searchPass2 desc = none →
      extractExperience blocks desc = "不限") := by
  refine ⟨?_, ?_, ?_, ?_⟩
  · intro t ht hne
    unfold extractExperience
    rw [ht]
    simp [hne]
  · intro hn
    unfold extractExperience
    rw [hn]
    simp
  · intro hs
    unfold extractExperience
    rw [hs]
    simp
  · intro hn hs
    unfold extractExperience
    rw [hn, hs]
    simp

/-- Witness for the amended C9: a first-pass match "3-5年" is kept. -/
theorem extract_experience_spec_witness :
    extractExperience [(true, "3-5年")] "" = "3-5年" :=
  (extract_experience_spec [(true, "3-5年")] "").1 "3-5年" (by decide) (by decide)

